import Mathlib

/-!
# lonelyweb: the dataset store and its two request handlers

A shallow embedding of `go_frontend/database.go` and `go_frontend/main.go`.

* The process-wide variables (`embeddedSQL`, `db`) live in a `World` record that every
  operation receives and returns. The record also keeps `queryLog`, the statements the
  program handed to `db.QueryRow`, oldest first, so that "performs a query" is observable.
* `database/sql` and the SQLite driver are outside the repository. A handle is either
  closed or live. A live handle is a pool of connections opened on the data source name
  `:memory:` with no limit on their number: the connection on which `initDB` ran the
  embedded script has the database that script built, and every other connection of the
  pool is a separate in-memory database without any table. Which connection serves a
  statement is decided by the pool (the scripted one when it is idle, another one when
  it is in use by a concurrent request), so it is a parameter of every query operation.
  The rows carry the five columns `getRandomVideo` scans, with the types of its scan
  destinations.
* `RANDOM()` is a parameter: `rnd i` is the 64-bit integer SQLite draws for the `i`-th row
  while it evaluates `ORDER BY RANDOM()`.
* Go values of type `error` are represented by their message (`none` for `nil`), and a
  Go result pair `(T, error)` is a Lean pair.
* Log output is not modelled.
-/

namespace Lonelyweb

/-! ## Data model -/

/-- Go struct `Video` of `database.go`. -/
structure Video where
  VideoID : String
  URL : String
  Title : String
  ChannelTitle : String
  ViewCount : Int
  EmbedURL : String
deriving DecidableEq

/-- Value of `var video Video` before any field is assigned. -/
def Video.zero : Video :=
  { VideoID := "", URL := "", Title := "", ChannelTitle := "", ViewCount := 0, EmbedURL := "" }

/-- One row of table `videos`, restricted to the columns the program selects. -/
structure VideoRow where
  video_id : String
  url : String
  title : String
  channel_title : String
  view_count : Int
deriving DecidableEq

/-- State of the connection pool behind a non-nil `*sql.DB`. -/
inductive DB where
  /-- The handle after `db.Close()`. -/
  | closed
  /-- An open pool; `videos` is table `videos` in the database of the connection on which
  `initDB` ran the embedded script, `none` when that table does not exist (no script was
  run, or the script does not create it). -/
  | live (videos : Option (List VideoRow))
deriving DecidableEq

/-- The pool connection that serves one statement. -/
inductive Conn where
  /-- The connection on which `initDB` ran the embedded script. -/
  | scripted
  /-- Any other connection of the pool, opened on `:memory:` while the scripted one was in
  use: a separate in-memory database that has no table. -/
  | other
deriving DecidableEq

/-- Process-wide state: the two package variables and the statements sent so far. -/
structure World where
  embeddedSQL : String
  db : Option DB
  queryLog : List String
deriving DecidableEq

/-- A loaded store: `db` is a live handle and the `videos` table that `initDB` built holds
`rows`. -/
def World.loaded (w : World) (rows : List VideoRow) : Prop :=
  w.db = some (DB.live (some rows))

instance (w : World) (rows : List VideoRow) : Decidable (w.loaded rows) := by
  unfold World.loaded; infer_instance

/-! ## The database library, as far as the program observes it -/

/-- Message of `database/sql` for a statement on a closed handle. -/
def errDBClosed : String := "sql: database is closed"

/-- Message of the SQLite driver for a statement naming the absent table `videos`. -/
def errNoSuchTable : String := "SQL logic error: no such table: videos (1)"

/-- Rows a `SELECT ... FROM videos` served by connection `c` ranges over, or the driver
error. -/
def DB.selectVideos : DB → Conn → Except String (List VideoRow)
  | DB.closed, _ => Except.error errDBClosed
  | DB.live _, Conn.other => Except.error errNoSuchTable
  | DB.live none, Conn.scripted => Except.error errNoSuchTable
  | DB.live (some rows), Conn.scripted => Except.ok rows

/-- The rows sorted by the key `RANDOM()` drew for each of them (`ORDER BY RANDOM()`).
Rows with equal keys keep their table order; SQLite leaves that order open, and no
statement below depends on it. -/
def orderByRandom (rows : List VideoRow) (rnd : Nat → Int) : List VideoRow :=
  (List.insertionSort (fun a b : Int × VideoRow => a.1 ≤ b.1)
    (List.zip (List.map rnd (List.range rows.length)) rows)).map Prod.snd

/-- Outcome of `row.Scan` on the result of `db.QueryRow`. -/
inductive ScanResult (α : Type) where
  /-- The sentinel `sql.ErrNoRows`. -/
  | errNoRows
  /-- Any other error, with its message. -/
  | failed (msg : String)
  /-- The first row of the result was copied into the destinations. -/
  | scanned (r : α)

/-- Text of the statement of `getRandomVideo`. -/
def randomVideoQuery : String :=
  "SELECT video_id, url, title, channel_title, view_count FROM videos ORDER BY RANDOM() LIMIT 1;"

/-- Text of the statement of `getVideoCount`. -/
def videoCountQuery : String := "SELECT COUNT(*) FROM videos;"

/-- Result of `db.QueryRow(randomVideoQuery)` followed by `Scan` of the five columns. -/
def DB.queryRandomRow (d : DB) (c : Conn) (rnd : Nat → Int) : ScanResult VideoRow :=
  match d.selectVideos c with
  | Except.error msg => ScanResult.failed msg
  | Except.ok rows =>
    match (orderByRandom rows rnd).take 1 with
    | [] => ScanResult.errNoRows
    | r :: _ => ScanResult.scanned r

/-- Result of `db.QueryRow(videoCountQuery)` followed by `Scan(&count)`. -/
def DB.queryCount (d : DB) (c : Conn) : ScanResult Int :=
  match d.selectVideos c with
  | Except.error msg => ScanResult.failed msg
  | Except.ok rows => ScanResult.scanned (rows.length : Int)

/-! ## database.go -/

/-- The `fmt.Sprintf` call that builds the embed URL. -/
def embedURL (videoID : String) : String :=
  "https://www.youtube.com/embed/" ++ videoID ++ "?autoplay=1&enablejsapi=1"

/-- Go `getRandomVideo`, its statement served by connection `c`: the returned pair and the
world afterwards. -/
def getRandomVideo (w : World) (c : Conn) (rnd : Nat → Int) :
    (Video × Option String) × World :=
  match w.db with
  | none => ((Video.zero, some "database connection is not initialized"), w)
  | some d =>
    let w1 := { w with queryLog := w.queryLog ++ [randomVideoQuery] }
    match d.queryRandomRow c rnd with
    | ScanResult.errNoRows => ((Video.zero, some "no videos found in the database"), w1)
    | ScanResult.failed msg => ((Video.zero, some ("error scanning video row: " ++ msg)), w1)
    | ScanResult.scanned r =>
      let video : Video :=
        { VideoID := r.video_id, URL := r.url, Title := r.title,
          ChannelTitle := r.channel_title, ViewCount := r.view_count, EmbedURL := "" }
      (({ video with EmbedURL := embedURL video.VideoID }, none), w1)

/-- Go `getVideoCount`, its statement served by connection `c`: the returned pair and the
world afterwards. -/
def getVideoCount (w : World) (c : Conn) : (Int × Option String) × World :=
  match w.db with
  | none => ((0, some "database connection is not initialized"), w)
  | some d =>
    let w1 := { w with queryLog := w.queryLog ++ [videoCountQuery] }
    match d.queryCount c with
    | ScanResult.scanned count => ((count, none), w1)
    | ScanResult.failed msg => ((0, some ("failed to get video count: " ++ msg)), w1)
    | ScanResult.errNoRows => ((0, some ("failed to get video count: sql: no rows in result set")), w1)

/-- What the surroundings answer to the calls `initDB` makes. -/
structure Env where
  /-- Outcome of `embeddedFS.ReadFile("data/embedded_data.sql")`: content or error. -/
  readFile : Except String String
  /-- Error of `sql.Open`, if any. -/
  openErr : Option String
  /-- Outcome of running a script on a fresh in-memory database: the error, or the
  resulting `videos` table (`none` when the script does not create it). -/
  execScript : String → Except String (Option (List VideoRow))
  /-- Error of `db.Ping`, if any. -/
  pingErr : Option String

/-- Go `initDB`: the returned error and the world afterwards. -/
def initDB (env : Env) (w : World) : Option String × World :=
  match env.readFile with
  | Except.error e =>
    (some ("failed to read embedded_data.sql from embedded FS: " ++ e), w)
  | Except.ok sqlBytes =>
    let w1 := { w with embeddedSQL := sqlBytes }
    match env.openErr with
    | some e => (some ("failed to open in-memory database: " ++ e), w1)
    | none =>
      let w2 := { w1 with db := some (DB.live none) }
      if w2.embeddedSQL = "" then
        (some ("embedded_data.sql is empty after reading from FS. " ++
          "Ensure it\x27s correctly embedded and populated"), w2)
      else
        match env.execScript w2.embeddedSQL with
        | Except.error e =>
          (some ("failed to execute embedded SQL: " ++ e), { w2 with db := some DB.closed })
        | Except.ok tbl =>
          let w3 := { w2 with db := some (DB.live tbl) }
          match env.pingErr with
          | some e =>
            (some ("failed to ping in-memory database: " ++ e), { w3 with db := some DB.closed })
          | none => (none, w3)

/-! ## main.go -/

/-- Go struct `PageData`; the pointer field `Video` is an `Option`. -/
structure PageData where
  TotalVideos : Int
  ErrorMessage : String
  Video : Option Video
deriving DecidableEq

/-- Go `indexHandler` up to the call of `templates.ExecuteTemplate`: the `data` value
handed to the template and the world afterwards. The count statement is served by
connection `cc`, the random-row statement by connection `cp`. -/
def indexHandler (w : World) (cc cp : Conn) (rnd : Nat → Int) : PageData × World :=
  let data : PageData := { TotalVideos := 0, ErrorMessage := "", Video := none }
  let ((totalVideos, err), w1) := getVideoCount w cc
  let data : PageData :=
    match err with
    | some _ => { data with ErrorMessage := "Could not retrieve total video count." }
    | none => data
  let data : PageData := { data with TotalVideos := totalVideos }
  let ((video, err), w2) := getRandomVideo w1 cp rnd
  let data : PageData :=
    match err with
    | some e =>
      if data.ErrorMessage ≠ "" then
        { data with ErrorMessage := data.ErrorMessage ++ " Additionally, failed to load a video." }
      else
        { data with ErrorMessage := e }
    | none => { data with Video := some video }
  (data, w2)

/-- A JSON scalar, as `encoding/json` writes a Go `string` or `int`. -/
inductive JSONValue where
  | str (s : String)
  | num (n : Int)
deriving DecidableEq

/-- What a handler wrote to its `http.ResponseWriter`: status code, the `Content-Type`
header and the members of the JSON object of the body, in the order written. -/
structure Response where
  status : Nat
  contentType : String
  body : List (String × JSONValue)
deriving DecidableEq

/-- Go `nextVideoJSONHandler`, its one statement served by connection `c`: the response
and the world afterwards. -/
def nextVideoJSONHandler (w : World) (c : Conn) (rnd : Nat → Int) : Response × World :=
  let ((video, err), w1) := getRandomVideo w c rnd
  match err with
  | some e =>
    ({ status := 500, contentType := "application/json",
       body := [("error", JSONValue.str e)] }, w1)
  | none =>
    ({ status := 200, contentType := "application/json",
       body := [("videoId", JSONValue.str video.VideoID),
                ("title", JSONValue.str video.Title),
                ("channelTitle", JSONValue.str video.ChannelTitle),
                ("viewCount", JSONValue.num video.ViewCount),
                ("url", JSONValue.str video.URL),
                ("embedUrl", JSONValue.str video.EmbedURL)] }, w1)

/-- The `Video` the program builds from a row of `videos`. -/
def VideoRow.toVideo (r : VideoRow) : Video :=
  { VideoID := r.video_id, URL := r.url, Title := r.title,
    ChannelTitle := r.channel_title, ViewCount := r.view_count,
    EmbedURL := embedURL r.video_id }

/-! ## Sample data -/

def rowA : VideoRow :=
  { video_id := "A", url := "https://www.youtube.com/watch?v=A", title := "first",
    channel_title := "one", view_count := 3 }

def rowB : VideoRow :=
  { video_id := "B", url := "https://www.youtube.com/watch?v=B", title := "second",
    channel_title := "two", view_count := 0 }

def rowC : VideoRow :=
  { video_id := "C", url := "https://www.youtube.com/watch?v=C", title := "",
    channel_title := "three", view_count := 12 }

/-- The world at process start: both package variables hold their zero values. -/
def World.start : World := { embeddedSQL := "", db := none, queryLog := [] }

/-- A store loaded with the three sample records. -/
def worldABC : World :=
  { embeddedSQL := "", db := some (DB.live (some [rowA, rowB, rowC])), queryLog := [] }

/-- A store loaded with no record. -/
def worldEmpty : World :=
  { embeddedSQL := "", db := some (DB.live (some [])), queryLog := [] }

/-- A fixed draw of `RANDOM()`: keys 5, 2, 9, then 0. -/
def rndSample : Nat → Int
  | 0 => 5
  | 1 => 2
  | 2 => 9
  | _ => 0

/-- The draw that gives row `i` the key 0 and every other row the key 1. -/
def rndFavouring (i : Nat) : Nat → Int := fun j => if j = i then 0 else 1

/-- Surroundings in which the embedded file is empty and everything else succeeds. -/
def envEmptySource : Env :=
  { readFile := Except.ok "", openErr := none,
    execScript := fun _ => Except.ok none, pingErr := none }


/-! ## Auxiliary facts -/

/-- Ordering by the random keys only rearranges the rows. -/
theorem orderByRandom_perm (rows : List VideoRow) (rnd : Nat → Int) :
    (orderByRandom rows rnd).Perm rows := by
  unfold orderByRandom
  have hzip : List.map Prod.snd (List.zip (List.map rnd (List.range rows.length)) rows) = rows :=
    List.map_snd_zip _ _ (by simp)
  have hsort := (List.perm_insertionSort (fun a b : Int × VideoRow => a.1 ≤ b.1)
    (List.zip (List.map rnd (List.range rows.length)) rows)).map Prod.snd
  rw [hzip] at hsort
  exact hsort

/-- On a loaded store the random-row statement, served by the scripted connection, reports
no rows exactly when the table is empty and otherwise scans a row of the table. -/
theorem queryRandomRow_scripted (rows : List VideoRow) (rnd : Nat → Int) :
    (rows = [] ∧
      (DB.live (some rows)).queryRandomRow Conn.scripted rnd = ScanResult.errNoRows) ∨
    (∃ r ∈ rows,
      (DB.live (some rows)).queryRandomRow Conn.scripted rnd = ScanResult.scanned r) := by
  have hperm := orderByRandom_perm rows rnd
  unfold DB.queryRandomRow
  simp only [DB.selectVideos]
  cases hsorted : orderByRandom rows rnd with
  | nil =>
    left
    rw [hsorted] at hperm
    exact ⟨List.Perm.nil_eq hperm |>.symm, by simp⟩
  | cons r rest =>
    right
    refine ⟨r, ?_, by simp⟩
    rw [hsorted] at hperm
    exact hperm.mem_iff.mp (List.mem_cons_self r rest)

/-- On a live handle a statement served by another connection fails: that database has no
table `videos`. -/
theorem queries_other_connection (tbl : Option (List VideoRow)) (rnd : Nat → Int) :
    (DB.live tbl).queryRandomRow Conn.other rnd = ScanResult.failed errNoSuchTable ∧
    (DB.live tbl).queryCount Conn.other = ScanResult.failed errNoSuchTable := by
  cases tbl <;> exact ⟨rfl, rfl⟩

/-- The pair `getRandomVideo` returns, read off the state of `db`. -/
theorem getRandomVideo_fst (w : World) (c : Conn) (rnd : Nat → Int) :
    (getRandomVideo w c rnd).1 =
      match w.db with
      | none => (Video.zero, some "database connection is not initialized")
      | some d =>
        match d.queryRandomRow c rnd with
        | ScanResult.errNoRows => (Video.zero, some "no videos found in the database")
        | ScanResult.failed msg => (Video.zero, some ("error scanning video row: " ++ msg))
        | ScanResult.scanned r => (r.toVideo, none) := by
  unfold getRandomVideo
  split
  · rfl
  · split <;> rfl

/-- The world `getRandomVideo` leaves: one more logged statement iff `db` is set. -/
theorem getRandomVideo_snd (w : World) (c : Conn) (rnd : Nat → Int) :
    (getRandomVideo w c rnd).2 =
      match w.db with
      | none => w
      | some _ => { w with queryLog := w.queryLog ++ [randomVideoQuery] } := by
  unfold getRandomVideo
  split
  · rfl
  · split <;> rfl

/-- The pair `getVideoCount` returns, read off the state of `db`. -/
theorem getVideoCount_fst (w : World) (c : Conn) :
    (getVideoCount w c).1 =
      match w.db with
      | none => (0, some "database connection is not initialized")
      | some d =>
        match d.queryCount c with
        | ScanResult.scanned count => (count, none)
        | ScanResult.failed msg => (0, some ("failed to get video count: " ++ msg))
        | ScanResult.errNoRows =>
          (0, some "failed to get video count: sql: no rows in result set") := by
  unfold getVideoCount
  split
  · rfl
  · split <;> rfl

/-- The world `getVideoCount` leaves: one more logged statement iff `db` is set. -/
theorem getVideoCount_snd (w : World) (c : Conn) :
    (getVideoCount w c).2 =
      match w.db with
      | none => w
      | some _ => { w with queryLog := w.queryLog ++ [videoCountQuery] } := by
  unfold getVideoCount
  split
  · rfl
  · split <;> rfl

/-- The pair `getRandomVideo` returns depends on the world through `db` only. -/
theorem getRandomVideo_result_congr (w w1 : World) (c : Conn) (rnd : Nat → Int)
    (h : w1.db = w.db) :
    (getRandomVideo w1 c rnd).1 = (getRandomVideo w c rnd).1 := by
  rw [getRandomVideo_fst, getRandomVideo_fst, h]

/-- Neither query operation assigns `db` or `embeddedSQL`. -/
theorem queries_keep_store (w : World) (c : Conn) (rnd : Nat → Int) :
    (getRandomVideo w c rnd).2.db = w.db ∧
    (getRandomVideo w c rnd).2.embeddedSQL = w.embeddedSQL ∧
    (getVideoCount w c).2.db = w.db ∧ (getVideoCount w c).2.embeddedSQL = w.embeddedSQL := by
  rw [getRandomVideo_snd, getVideoCount_snd]
  cases h : w.db <;> simp [h]

/-- Every error `getRandomVideo` returns has a non-empty message. -/
theorem getRandomVideo_error_nonempty (w : World) (c : Conn) (rnd : Nat → Int) (e : String)
    (h : (getRandomVideo w c rnd).1.2 = some e) : e ≠ "" := by
  have happ : ∀ a b : String, a ≠ "" → a ++ b ≠ "" := by
    intro a b ha hab
    apply ha
    have hlen := congrArg String.length hab
    simp at hlen
    exact String.ext (by simpa using List.length_eq_zero.mp (by simpa using hlen.1))
  rw [getRandomVideo_fst] at h
  cases hdb : w.db with
  | none =>
    simp [hdb] at h
    rw [← h]; decide
  | some d =>
    simp only [hdb] at h
    cases hq : d.queryRandomRow c rnd with
    | errNoRows =>
      simp [hq] at h
      rw [← h]; decide
    | failed msg =>
      simp [hq] at h
      rw [← h]
      exact happ _ _ (by decide)
    | scanned r => simp [hq] at h

/-- On a loaded store `getRandomVideo` has three outcomes: served by the scripted
connection it reports the empty dataset (no rows) or returns the `Video` built from one
row of the table; served by another connection it fails on the missing table. -/
theorem getRandomVideo_loaded (w : World) (c : Conn) (rnd : Nat → Int)
    (rows : List VideoRow) (h : w.loaded rows) :
    (c = Conn.scripted ∧ rows = [] ∧
      (getRandomVideo w c rnd).1 = (Video.zero, some "no videos found in the database")) ∨
    (c = Conn.scripted ∧ ∃ r ∈ rows, (getRandomVideo w c rnd).1 = (r.toVideo, none)) ∨
    (c = Conn.other ∧
      (getRandomVideo w c rnd).1 =
        (Video.zero, some ("error scanning video row: " ++ errNoSuchTable))) := by
  unfold World.loaded at h
  rw [getRandomVideo_fst, h]
  cases c with
  | scripted =>
    rcases queryRandomRow_scripted rows rnd with ⟨hnil, hq⟩ | ⟨r, hr, hq⟩
    · left
      exact ⟨rfl, hnil, by simp only [hq]⟩
    · right; left
      exact ⟨rfl, r, hr, by simp only [hq]⟩
  | other =>
    right; right
    exact ⟨rfl, by simp only [(queries_other_connection (some rows) rnd).1]⟩

/-- On a loaded store, `getVideoCount` served by the scripted connection succeeds with the
number of rows of the table. -/
theorem getVideoCount_scripted (w : World) (rows : List VideoRow) (h : w.loaded rows) :
    (getVideoCount w Conn.scripted).1 = ((rows.length : Int), none) := by
  unfold World.loaded at h
  rw [getVideoCount_fst, h]
  rfl

/-- The pairs `orderByRandom` sorts: position `j` holds the key `rnd j` and row `j`. -/
theorem keyed_rows_mem (rows : List VideoRow) (rnd : Nat → Int) (p : Int × VideoRow) :
    p ∈ List.zip (List.map rnd (List.range rows.length)) rows ↔
      ∃ j, ∃ hj : j < rows.length, p = (rnd j, rows[j]) := by
  rw [List.mem_iff_getElem]
  constructor
  · rintro ⟨j, hj, hp⟩
    have hj2 : j < rows.length := by
      simp [List.length_zip] at hj
      exact hj
    refine ⟨j, hj2, ?_⟩
    rw [← hp, List.getElem_zip]
    simp
  · rintro ⟨j, hj, hp⟩
    have hj2 : j < (List.zip (List.map rnd (List.range rows.length)) rows).length := by
      simp [List.length_zip]
      exact hj
    refine ⟨j, hj2, ?_⟩
    rw [hp, List.getElem_zip]
    simp

/-- Under the draw favouring row `i`, `ORDER BY RANDOM()` puts row `i` first. -/
theorem orderByRandom_favouring (rows : List VideoRow) (i : Nat) (hi : i < rows.length) :
    ∃ rest, orderByRandom rows (rndFavouring i) = rows[i] :: rest := by
  unfold orderByRandom
  generalize hL : List.zip (List.map (rndFavouring i) (List.range rows.length)) rows = L
  have hmemL : ∀ p, p ∈ L ↔ ∃ j, ∃ hj : j < rows.length, p = (rndFavouring i j, rows[j]) := by
    intro p
    rw [← hL]
    exact keyed_rows_mem rows (rndFavouring i) p
  have hperm := List.perm_insertionSort (fun a b : Int × VideoRow => a.1 ≤ b.1) L
  have htotal : IsTotal (Int × VideoRow) (fun a b => a.1 ≤ b.1) := ⟨fun a b => le_total a.1 b.1⟩
  have htrans : IsTrans (Int × VideoRow) (fun a b => a.1 ≤ b.1) :=
    ⟨fun _ _ _ hab hbc => le_trans hab hbc⟩
  have hsorted := List.sorted_insertionSort (fun a b : Int × VideoRow => a.1 ≤ b.1) L
  have hfav : ((0 : Int), rows[i]) ∈ L := (hmemL _).mpr ⟨i, hi, by simp [rndFavouring]⟩
  cases hS : List.insertionSort (fun a b : Int × VideoRow => a.1 ≤ b.1) L with
  | nil =>
    rw [hS] at hperm
    rw [← List.Perm.nil_eq hperm] at hfav
    simp at hfav
  | cons hd tl =>
    rw [hS] at hperm hsorted
    have hhd : hd ∈ L := hperm.mem_iff.mp (List.mem_cons_self hd tl)
    have hle : hd.1 ≤ 0 := by
      rcases List.mem_cons.mp (hperm.mem_iff.mpr hfav) with heq | hin
      · rw [← heq]
      · exact List.rel_of_sorted_cons hsorted _ hin
    obtain ⟨j, hj, hp⟩ := (hmemL hd).mp hhd
    have hji : j = i := by
      by_contra hne
      rw [hp] at hle
      simp [rndFavouring, hne] at hle
    subst hji
    exact ⟨tl.map Prod.snd, by simp [hp]⟩

/-- On a loaded store every record can be returned: for each row of the table there is a
draw under which `getRandomVideo`, served by the scripted connection, returns the `Video`
built from that row. -/
theorem getRandomVideo_reaches_every_record (w : World) (rows : List VideoRow)
    (h : w.loaded rows) (r : VideoRow) (hr : r ∈ rows) :
    ∃ rnd, (getRandomVideo w Conn.scripted rnd).1 = (r.toVideo, none) := by
  obtain ⟨i, hi, hri⟩ := List.mem_iff_getElem.mp hr
  obtain ⟨rest, hord⟩ := orderByRandom_favouring rows i hi
  refine ⟨rndFavouring i, ?_⟩
  unfold World.loaded at h
  rw [getRandomVideo_fst, h]
  simp [DB.queryRandomRow, DB.selectVideos, hord, hri]

/-- A successful `getRandomVideo` returns a `Video` whose `EmbedURL` is `embedURL` of its
own `VideoID`. -/
theorem getRandomVideo_success_shape (w : World) (c : Conn) (rnd : Nat → Int)
    (hok : (getRandomVideo w c rnd).1.2 = none) :
    (getRandomVideo w c rnd).1.1.EmbedURL = embedURL (getRandomVideo w c rnd).1.1.VideoID := by
  rw [getRandomVideo_fst] at hok ⊢
  cases hdb : w.db with
  | none => simp [hdb] at hok
  | some d =>
    simp only [hdb] at hok ⊢
    cases hq : d.queryRandomRow c rnd with
    | errNoRows => simp [hq] at hok
    | failed msg => simp [hq] at hok
    | scanned r => rfl

/-! ## The dataset store -/

/-- C1: whenever `getRandomVideo` succeeds, the `EmbedURL` of the returned `Video` is
exactly `https://www.youtube.com/embed/`, then the `VideoID` of that same `Video`, then
`?autoplay=1&enablejsapi=1`; this holds for every state of the store, every serving
connection and every draw. -/
theorem getRandomVideo_embedURL (w : World) (c : Conn) (rnd : Nat → Int)
    (hok : (getRandomVideo w c rnd).1.2 = none) :
    (getRandomVideo w c rnd).1.1.EmbedURL =
      "https://www.youtube.com/embed/" ++ (getRandomVideo w c rnd).1.1.VideoID ++
        "?autoplay=1&enablejsapi=1" := by
  have hshape := getRandomVideo_success_shape w c rnd hok
  rw [hshape]
  rfl

theorem getRandomVideo_embedURL_witness :
    (getRandomVideo worldABC Conn.scripted rndSample).1.2 = none ∧
    (getRandomVideo worldABC Conn.scripted rndSample).1.1.EmbedURL =
      "https://www.youtube.com/embed/" ++
        (getRandomVideo worldABC Conn.scripted rndSample).1.1.VideoID ++
        "?autoplay=1&enablejsapi=1" :=
  ⟨by decide, getRandomVideo_embedURL worldABC Conn.scripted rndSample (by decide)⟩

/-- C2 at its failing input: on a store loaded with zero records, a `getRandomVideo` whose
statement is served by a pool connection other than the scripted one returns the scan
error of the missing table, which is not `no videos found in the database`. -/
theorem getRandomVideo_empty_other_connection :
    worldEmpty.loaded [] ∧
    (getRandomVideo worldEmpty Conn.other rndSample).1 =
      (Video.zero, some ("error scanning video row: " ++ errNoSuchTable)) ∧
    (getRandomVideo worldEmpty Conn.other rndSample).1.2 ≠
      some "no videos found in the database" := by
  decide

/-- What holds of the empty-dataset error: on a loaded store with zero records
`getRandomVideo` never succeeds, and returns `no videos found in the database` when the
scripted connection serves it; on a loaded store with at least one record it never returns
that error. -/
theorem getRandomVideo_empty_dataset_parts (w : World) (c : Conn) (rnd : Nat → Int)
    (rows : List VideoRow) (h : w.loaded rows) :
    (rows.length = 0 →
      (getRandomVideo w c rnd).1.2 ≠ none ∧
      (c = Conn.scripted →
        (getRandomVideo w c rnd).1.2 = some "no videos found in the database")) ∧
    (1 ≤ rows.length →
      (getRandomVideo w c rnd).1.2 ≠ some "no videos found in the database") := by
  rcases getRandomVideo_loaded w c rnd rows h with
    ⟨_, hnil, hres⟩ | ⟨_, r, hr, hres⟩ | ⟨hc, hres⟩
  · refine ⟨fun _ => by simp [hres], fun hN => ?_⟩
    simp [hnil] at hN
  · refine ⟨fun h0 => ?_, fun _ => by simp [hres]⟩
    rw [List.length_eq_zero.mp h0] at hr
    simp at hr
  · refine ⟨fun _ => ⟨by simp [hres], fun hs => ?_⟩, fun _ => ?_⟩
    · rw [hc] at hs
      cases hs
    · rw [hres]
      decide

/-- C3: on a loaded store (with `N ≥ 1` records, as a success implies), a successful
`getRandomVideo` returns a `Video` whose `VideoID`, `URL`, `Title`, `ChannelTitle` and
`ViewCount` are the five columns of one single row of the table, for every serving
connection and every draw. -/
theorem getRandomVideo_member (w : World) (c : Conn) (rnd : Nat → Int)
    (rows : List VideoRow) (h : w.loaded rows)
    (hok : (getRandomVideo w c rnd).1.2 = none) :
    1 ≤ rows.length ∧ ∃ r ∈ rows,
      (getRandomVideo w c rnd).1.1.VideoID = r.video_id ∧
      (getRandomVideo w c rnd).1.1.URL = r.url ∧
      (getRandomVideo w c rnd).1.1.Title = r.title ∧
      (getRandomVideo w c rnd).1.1.ChannelTitle = r.channel_title ∧
      (getRandomVideo w c rnd).1.1.ViewCount = r.view_count := by
  rcases getRandomVideo_loaded w c rnd rows h with
    ⟨_, _, hres⟩ | ⟨_, r, hr, hres⟩ | ⟨_, hres⟩
  · simp [hres] at hok
  · exact ⟨List.length_pos_of_mem hr, r, hr, by simp [hres, VideoRow.toVideo]⟩
  · simp [hres] at hok

theorem getRandomVideo_member_witness :
    worldABC.loaded [rowA, rowB, rowC] ∧
    (getRandomVideo worldABC Conn.scripted rndSample).1.2 = none ∧
    1 ≤ [rowA, rowB, rowC].length ∧ ∃ r ∈ [rowA, rowB, rowC],
      (getRandomVideo worldABC Conn.scripted rndSample).1.1.VideoID = r.video_id ∧
      (getRandomVideo worldABC Conn.scripted rndSample).1.1.URL = r.url ∧
      (getRandomVideo worldABC Conn.scripted rndSample).1.1.Title = r.title ∧
      (getRandomVideo worldABC Conn.scripted rndSample).1.1.ChannelTitle = r.channel_title ∧
      (getRandomVideo worldABC Conn.scripted rndSample).1.1.ViewCount = r.view_count :=
  ⟨by decide, by decide,
    getRandomVideo_member worldABC Conn.scripted rndSample [rowA, rowB, rowC] (by decide)
      (by decide)⟩

/-- C4 at its failing input: on the store loaded with the three records A, B, C, a
`getVideoCount` whose statement is served by a pool connection other than the scripted one
returns count 0 with the error of the missing table, not count 3. -/
theorem getVideoCount_other_connection :
    worldABC.loaded [rowA, rowB, rowC] ∧
    (getVideoCount worldABC Conn.other).1 =
      (0, some ("failed to get video count: " ++ errNoSuchTable)) ∧
    (getVideoCount worldABC Conn.other).1 ≠ (3, none) := by
  decide

/-- What holds of the count: on a loaded store `getVideoCount` never returns a negative
count; served by the scripted connection it returns the number of records without error,
and served by another connection it returns 0 with the error of the missing table. -/
theorem getVideoCount_loaded_parts (w : World) (c : Conn) (rows : List VideoRow)
    (h : w.loaded rows) :
    0 ≤ (getVideoCount w c).1.1 ∧
    (c = Conn.scripted → (getVideoCount w c).1 = ((rows.length : Int), none)) ∧
    (c = Conn.other →
      (getVideoCount w c).1 = (0, some ("failed to get video count: " ++ errNoSuchTable))) := by
  have hother : (getVideoCount w Conn.other).1 =
      (0, some ("failed to get video count: " ++ errNoSuchTable)) := by
    unfold World.loaded at h
    rw [getVideoCount_fst, h]
    simp only [(queries_other_connection (some rows) (fun _ => 0)).2]
  cases c with
  | scripted =>
    refine ⟨?_, fun _ => getVideoCount_scripted w rows h, fun hc => by cases hc⟩
    rw [getVideoCount_scripted w rows h]
    exact Int.natCast_nonneg _
  | other =>
    refine ⟨?_, fun hc => (by cases hc), fun _ => hother⟩
    rw [hother]

/-- C6: while `db` is nil, `getRandomVideo` returns the error
`database connection is not initialized` with the zero `Video`, `getVideoCount` returns the
same error with count 0, and neither hands a statement to the database: the world, its
query log included, is as before. -/
theorem store_unavailable (w : World) (c : Conn) (rnd : Nat → Int) (h : w.db = none) :
    getRandomVideo w c rnd =
      ((Video.zero, some "database connection is not initialized"), w) ∧
    getVideoCount w c = ((0, some "database connection is not initialized"), w) ∧
    (getRandomVideo w c rnd).2.queryLog = w.queryLog ∧
    (getVideoCount w c).2.queryLog = w.queryLog := by
  have h1 : getRandomVideo w c rnd =
      ((Video.zero, some "database connection is not initialized"), w) := by
    apply Prod.ext
    · rw [getRandomVideo_fst, h]
    · rw [getRandomVideo_snd, h]
  have h2 : getVideoCount w c = ((0, some "database connection is not initialized"), w) := by
    apply Prod.ext
    · rw [getVideoCount_fst, h]
    · rw [getVideoCount_snd, h]
  exact ⟨h1, h2, by rw [h1], by rw [h2]⟩

theorem store_unavailable_witness :
    World.start.db = none ∧
    getRandomVideo World.start Conn.scripted rndSample =
      ((Video.zero, some "database connection is not initialized"), World.start) ∧
    getVideoCount World.start Conn.scripted =
      ((0, some "database connection is not initialized"), World.start) :=
  ⟨rfl, (store_unavailable World.start Conn.scripted rndSample rfl).1,
    (store_unavailable World.start Conn.scripted rndSample rfl).2.1⟩

/-- C5 as stated fails: with an empty embedded file `initDB` returns an error, but `db` is
not left unset and the two queries afterwards do not fail with the store-unavailable
error; they are sent to the handle. -/
theorem initDB_empty_source_sets_db :
    (initDB envEmptySource World.start).1 ≠ none ∧
    ¬ ((initDB envEmptySource World.start).2.db = none ∧
       (getRandomVideo (initDB envEmptySource World.start).2 Conn.other rndSample).1.2 =
         some "database connection is not initialized" ∧
       (getVideoCount (initDB envEmptySource World.start).2 Conn.other).1.2 =
         some "database connection is not initialized" ∧
       (getRandomVideo (initDB envEmptySource World.start).2 Conn.other rndSample).2.queryLog
         = [] ∧
       (getVideoCount (initDB envEmptySource World.start).2 Conn.other).2.queryLog = []) := by
  decide

/-- C5, amended: started with `db` nil and given an empty embedded file, `initDB` returns an
error and afterwards `getRandomVideo` and `getVideoCount` both fail, the latter with count
0, whichever connection serves them. When `sql.Open` succeeded the error is the emptiness
message, `db` is set to a live handle without the `videos` table, and both queries are
sent to it and fail there. -/
theorem initDB_empty_source (env : Env) (w : World) (cp cc : Conn) (rnd : Nat → Int)
    (hsrc : env.readFile = Except.ok "") (hdb : w.db = none) :
    (initDB env w).1 ≠ none ∧
    (getRandomVideo (initDB env w).2 cp rnd).1.2 ≠ none ∧
    (getVideoCount (initDB env w).2 cc).1.2 ≠ none ∧
    (getVideoCount (initDB env w).2 cc).1.1 = 0 ∧
    (env.openErr = none →
      (initDB env w).1 = some ("embedded_data.sql is empty after reading from FS. " ++
        "Ensure it\x27s correctly embedded and populated") ∧
      (initDB env w).2.db = some (DB.live none) ∧
      (getRandomVideo (initDB env w).2 cp rnd).1 =
        (Video.zero, some ("error scanning video row: " ++ errNoSuchTable)) ∧
      (getVideoCount (initDB env w).2 cc).1 =
        (0, some ("failed to get video count: " ++ errNoSuchTable)) ∧
      (getRandomVideo (initDB env w).2 cp rnd).2.queryLog =
        w.queryLog ++ [randomVideoQuery] ∧
      (getVideoCount (initDB env w).2 cc).2.queryLog = w.queryLog ++ [videoCountQuery]) := by
  cases hopen : env.openErr with
  | some e =>
    have hinit : initDB env w =
        (some ("failed to open in-memory database: " ++ e), { w with embeddedSQL := "" }) := by
      simp only [initDB, hsrc, hopen]
    rw [hinit, getRandomVideo_fst, getVideoCount_fst]
    simp [hdb]
  | none =>
    have hinit : initDB env w =
        (some ("embedded_data.sql is empty after reading from FS. " ++
          "Ensure it\x27s correctly embedded and populated"),
         { w with embeddedSQL := "", db := some (DB.live none) }) := by
      simp [initDB, hsrc, hopen]
    rw [hinit, getRandomVideo_fst, getVideoCount_fst, getRandomVideo_snd, getVideoCount_snd]
    cases cp <;> cases cc <;> simp [DB.queryRandomRow, DB.queryCount, DB.selectVideos]

theorem initDB_empty_source_witness :
    envEmptySource.readFile = Except.ok "" ∧ World.start.db = none ∧
    (initDB envEmptySource World.start).1 ≠ none ∧
    (getRandomVideo (initDB envEmptySource World.start).2 Conn.other rndSample).1.2 ≠ none ∧
    (getVideoCount (initDB envEmptySource World.start).2 Conn.other).1.2 ≠ none :=
  ⟨rfl, rfl,
    (initDB_empty_source envEmptySource World.start Conn.other Conn.other rndSample
      rfl rfl).1,
    (initDB_empty_source envEmptySource World.start Conn.other Conn.other rndSample
      rfl rfl).2.1,
    (initDB_empty_source envEmptySource World.start Conn.other Conn.other rndSample
      rfl rfl).2.2.1⟩

/-! ## The request handlers -/

/-- The response of `nextVideoJSONHandler`, read off the one `getRandomVideo` call. -/
theorem nextVideoJSONHandler_eq (w : World) (c : Conn) (rnd : Nat → Int) :
    nextVideoJSONHandler w c rnd =
      (match (getRandomVideo w c rnd).1.2 with
       | some e =>
         { status := 500, contentType := "application/json",
           body := [("error", JSONValue.str e)] }
       | none =>
         { status := 200, contentType := "application/json",
           body := [("videoId", JSONValue.str (getRandomVideo w c rnd).1.1.VideoID),
                    ("title", JSONValue.str (getRandomVideo w c rnd).1.1.Title),
                    ("channelTitle", JSONValue.str (getRandomVideo w c rnd).1.1.ChannelTitle),
                    ("viewCount", JSONValue.num (getRandomVideo w c rnd).1.1.ViewCount),
                    ("url", JSONValue.str (getRandomVideo w c rnd).1.1.URL),
                    ("embedUrl", JSONValue.str (getRandomVideo w c rnd).1.1.EmbedURL)] },
       (getRandomVideo w c rnd).2) := by
  unfold nextVideoJSONHandler
  rcases hres : getRandomVideo w c rnd with ⟨⟨video, err⟩, w1⟩
  cases err <;> rfl

/-- C7: in every state of the store and for every serving connection, if `getRandomVideo`
fails with error `e` then `nextVideoJSONHandler` answers with status 500 and a JSON object
whose only member is `error` with value the message of `e`; and the status is 500 exactly
when `getRandomVideo` failed. -/
theorem nextVideoJSONHandler_error (w : World) (c : Conn) (rnd : Nat → Int) :
    ((nextVideoJSONHandler w c rnd).1.status = 500 ↔ (getRandomVideo w c rnd).1.2 ≠ none) ∧
    ∀ e, (getRandomVideo w c rnd).1.2 = some e →
      (nextVideoJSONHandler w c rnd).1.status = 500 ∧
      (nextVideoJSONHandler w c rnd).1.body = [("error", JSONValue.str e)] := by
  rw [nextVideoJSONHandler_eq]
  cases herr : (getRandomVideo w c rnd).1.2 with
  | none => simp
  | some e => simp

theorem nextVideoJSONHandler_error_witness :
    (getRandomVideo worldEmpty Conn.scripted rndSample).1.2 =
      some "no videos found in the database" ∧
    (nextVideoJSONHandler worldEmpty Conn.scripted rndSample).1.status = 500 ∧
    (nextVideoJSONHandler worldEmpty Conn.scripted rndSample).1.body =
      [("error", JSONValue.str "no videos found in the database")] :=
  ⟨by decide,
    (nextVideoJSONHandler_error worldEmpty Conn.scripted rndSample).2
      "no videos found in the database" (by decide)⟩

/-- C8: on a loaded store (e.g. the three records A, B, C), when the `getRandomVideo` call
of `nextVideoJSONHandler` succeeds with video `v`, the handler answers with status 200 and
a JSON object with exactly the members `videoId`, `title`, `channelTitle`, `viewCount`,
`url`, `embedUrl`, holding the corresponding fields of `v`; it made that one call only
(the world afterwards is the world after one `getRandomVideo`, with one statement added
to the query log); `videoId` is the id of a loaded record and `embedUrl` is the embed
template for that id. -/
theorem nextVideoJSONHandler_success (w : World) (c : Conn) (rnd : Nat → Int)
    (rows : List VideoRow) (h : w.loaded rows)
    (hok : (getRandomVideo w c rnd).1.2 = none) :
    (nextVideoJSONHandler w c rnd).1.status = 200 ∧
    (nextVideoJSONHandler w c rnd).1.body =
      [("videoId", JSONValue.str (getRandomVideo w c rnd).1.1.VideoID),
       ("title", JSONValue.str (getRandomVideo w c rnd).1.1.Title),
       ("channelTitle", JSONValue.str (getRandomVideo w c rnd).1.1.ChannelTitle),
       ("viewCount", JSONValue.num (getRandomVideo w c rnd).1.1.ViewCount),
       ("url", JSONValue.str (getRandomVideo w c rnd).1.1.URL),
       ("embedUrl", JSONValue.str (getRandomVideo w c rnd).1.1.EmbedURL)] ∧
    (nextVideoJSONHandler w c rnd).2 = (getRandomVideo w c rnd).2 ∧
    (nextVideoJSONHandler w c rnd).2.queryLog = w.queryLog ++ [randomVideoQuery] ∧
    (∃ r ∈ rows, (getRandomVideo w c rnd).1.1.VideoID = r.video_id) ∧
    (getRandomVideo w c rnd).1.1.EmbedURL =
      "https://www.youtube.com/embed/" ++ (getRandomVideo w c rnd).1.1.VideoID ++
        "?autoplay=1&enablejsapi=1" := by
  have hlog : (getRandomVideo w c rnd).2.queryLog = w.queryLog ++ [randomVideoQuery] := by
    unfold World.loaded at h
    rw [getRandomVideo_snd, h]
  have hmem : ∃ r ∈ rows, (getRandomVideo w c rnd).1.1.VideoID = r.video_id := by
    rcases getRandomVideo_loaded w c rnd rows h with
      ⟨_, _, hres⟩ | ⟨_, r, hr, hres⟩ | ⟨_, hres⟩
    · simp [hres] at hok
    · exact ⟨r, hr, by simp [hres, VideoRow.toVideo]⟩
    · simp [hres] at hok
  have hurl : (getRandomVideo w c rnd).1.1.EmbedURL =
      "https://www.youtube.com/embed/" ++ (getRandomVideo w c rnd).1.1.VideoID ++
        "?autoplay=1&enablejsapi=1" := by
    rw [getRandomVideo_success_shape w c rnd hok]
    rfl
  rw [nextVideoJSONHandler_eq]
  exact ⟨by simp [hok], by simp [hok], rfl, hlog, hmem, hurl⟩

theorem nextVideoJSONHandler_success_witness :
    worldABC.loaded [rowA, rowB, rowC] ∧
    (getRandomVideo worldABC Conn.scripted rndSample).1.2 = none ∧
    (nextVideoJSONHandler worldABC Conn.scripted rndSample).1.status = 200 ∧
    (nextVideoJSONHandler worldABC Conn.scripted rndSample).1.body =
      [("videoId", JSONValue.str "B"), ("title", JSONValue.str "second"),
       ("channelTitle", JSONValue.str "two"), ("viewCount", JSONValue.num 0),
       ("url", JSONValue.str "https://www.youtube.com/watch?v=B"),
       ("embedUrl",
        JSONValue.str "https://www.youtube.com/embed/B?autoplay=1&enablejsapi=1")] ∧
    (nextVideoJSONHandler worldABC Conn.scripted rndSample).2.queryLog = [randomVideoQuery] :=
  ⟨by decide,  by decide,
    (nextVideoJSONHandler_success worldABC Conn.scripted rndSample [rowA, rowB, rowC]
      (by decide) (by decide)).1,
    by decide,
    (nextVideoJSONHandler_success worldABC Conn.scripted rndSample [rowA, rowB, rowC]
      (by decide) (by decide)).2.2.2.1⟩

/-- The page data of `indexHandler`, read off its two store calls. -/
theorem indexHandler_data (w : World) (cc cp : Conn) (rnd : Nat → Int) :
    (indexHandler w cc cp rnd).1 =
      { TotalVideos := (getVideoCount w cc).1.1,
        ErrorMessage :=
          match (getVideoCount w cc).1.2, (getRandomVideo w cp rnd).1.2 with
          | none, none => ""
          | none, some e => e
          | some _, none => "Could not retrieve total video count."
          | some _, some _ =>
            "Could not retrieve total video count." ++ " Additionally, failed to load a video.",
        Video :=
          match (getRandomVideo w cp rnd).1.2 with
          | none => some (getRandomVideo w cp rnd).1.1
          | some _ => none } := by
  have hcongr := getRandomVideo_result_congr w (getVideoCount w cc).2 cp rnd
    (queries_keep_store w cc rnd).2.2.1
  rw [← hcongr]
  unfold indexHandler
  rcases hcount : getVideoCount w cc with ⟨⟨totalVideos, cerr⟩, w1⟩
  rcases hres : getRandomVideo w1 cp rnd with ⟨⟨video, err⟩, w2⟩
  cases cerr <;> cases err <;> simp [hres]

/-- C9 at its failing input: on a store loaded with zero records, when the count statement
of `indexHandler` is served by a pool connection other than the scripted one, the page
data carries `Could not retrieve total video count. Additionally, failed to load a video.`
and not `no videos found in the database`; when the random-row statement is, it carries
the scan error of the missing table. -/
theorem indexHandler_empty_other_connection :
    worldEmpty.loaded [] ∧
    (indexHandler worldEmpty Conn.other Conn.scripted rndSample).1 =
      { TotalVideos := 0,
        ErrorMessage :=
          "Could not retrieve total video count. Additionally, failed to load a video.",
        Video := none } ∧
    (indexHandler worldEmpty Conn.scripted Conn.other rndSample).1 =
      { TotalVideos := 0,
        ErrorMessage := "error scanning video row: " ++ errNoSuchTable,
        Video := none } ∧
    (indexHandler worldEmpty Conn.other Conn.scripted rndSample).1.ErrorMessage ≠
      "no videos found in the database" ∧
    (indexHandler worldEmpty Conn.scripted Conn.other rndSample).1.ErrorMessage ≠
      "no videos found in the database" := by
  decide

/-- What holds of the page data in every state of the store and for every pair of serving
connections: `Video` is set exactly when `getRandomVideo` succeeded (and then it is the
returned video), and `ErrorMessage` is non-empty whenever `getRandomVideo` or
`getVideoCount` failed. On a loaded store with zero records `TotalVideos` is 0, `Video`
is absent and `ErrorMessage` is non-empty; when both statements are served by the
scripted connection the message is `no videos found in the database`. -/
theorem indexHandler_page_data_parts (w : World) (cc cp : Conn) (rnd : Nat → Int) :
    ((indexHandler w cc cp rnd).1.Video ≠ none ↔ (getRandomVideo w cp rnd).1.2 = none) ∧
    ((getRandomVideo w cp rnd).1.2 = none →
      (indexHandler w cc cp rnd).1.Video = some (getRandomVideo w cp rnd).1.1) ∧
    ((getRandomVideo w cp rnd).1.2 ≠ none ∨ (getVideoCount w cc).1.2 ≠ none →
      (indexHandler w cc cp rnd).1.ErrorMessage ≠ "") ∧
    (w.loaded [] →
      (indexHandler w cc cp rnd).1.TotalVideos = 0 ∧
      (indexHandler w cc cp rnd).1.Video = none ∧
      (indexHandler w cc cp rnd).1.ErrorMessage ≠ "" ∧
      (cc = Conn.scripted → cp = Conn.scripted →
        (indexHandler w cc cp rnd).1 =
          { TotalVideos := 0, ErrorMessage := "no videos found in the database",
            Video := none })) := by
  have hnonempty : (getRandomVideo w cp rnd).1.2 ≠ none ∨ (getVideoCount w cc).1.2 ≠ none →
      (indexHandler w cc cp rnd).1.ErrorMessage ≠ "" := by
    rw [indexHandler_data]
    intro hfail
    cases herr : (getRandomVideo w cp rnd).1.2 with
    | none =>
      cases hcerr : (getVideoCount w cc).1.2 with
      | none => simp [herr, hcerr] at hfail
      | some c => simp only []; decide
    | some e =>
      cases hcerr : (getVideoCount w cc).1.2 with
      | none =>
        simp only []
        exact getRandomVideo_error_nonempty w cp rnd e herr
      | some c => simp only []; decide
  refine ⟨?_, ?_, hnonempty, ?_⟩
  · rw [indexHandler_data]
    cases (getRandomVideo w cp rnd).1.2 <;> simp
  · intro hok
    rw [indexHandler_data]
    simp [hok]
  · intro hload
    have hfail : (getRandomVideo w cp rnd).1.2 ≠ none :=
      ((getRandomVideo_empty_dataset_parts w cp rnd [] hload).1 rfl).1
    have hcount := getVideoCount_loaded_parts w cc [] hload
    refine ⟨?_, ?_, hnonempty (Or.inl hfail), ?_⟩
    · rw [indexHandler_data]
      cases cc with
      | scripted => simp [hcount.2.1 rfl]
      | other => simp [hcount.2.2 rfl]
    · rw [indexHandler_data]
      cases herr : (getRandomVideo w cp rnd).1.2 with
      | none => exact absurd herr hfail
      | some e => rfl
    · intro hcc hcp
      subst hcc hcp
      have hpick := ((getRandomVideo_empty_dataset_parts w Conn.scripted rnd [] hload).1
        rfl).2 rfl
      rw [indexHandler_data]
      simp [hcount.2.1 rfl, hpick]

/-- The count can fail while the pick succeeds: on the three-record store with the count
statement served by another connection, the page shows the count error and the video. -/
theorem indexHandler_count_fails_alone :
    (getVideoCount worldABC Conn.other).1.2 ≠ none ∧
    (getRandomVideo worldABC Conn.scripted rndSample).1.2 = none ∧
    (indexHandler worldABC Conn.other Conn.scripted rndSample).1 =
      { TotalVideos := 0, ErrorMessage := "Could not retrieve total video count.",
        Video := some rowB.toVideo } := by
  decide

end Lonelyweb
